import Mathlib

/-!
Verification of the free-slot / booking-conflict core and surrounding glue of
a webhook-driven WhatsApp scheduling bot (`app.py`).

Times of day are modelled as minutes (Int) relative to midnight of the
resolved date; Python `datetime` values are modelled by `PyDateTime`
(year/month/day plus an opaque time-of-day component), compared
lexicographically just as timezone-homogeneous `datetime` comparison does.
Fallible Python operations (`datetime.replace` raising `ValueError`, calendar
API calls raising) are modelled with `Except`.
-/

/-- Models Python `str.lower` on the character repertoire used by the
keyword lists and messages: ASCII letters plus the accented Portuguese
capitals. -/
def toLowerPy (c : Char) : Char :=
  match c with
  | 'Á' => 'á'
  | 'À' => 'à'
  | 'Â' => 'â'
  | 'Ã' => 'ã'
  | 'É' => 'é'
  | 'Ê' => 'ê'
  | 'Í' => 'í'
  | 'Ó' => 'ó'
  | 'Ô' => 'ô'
  | 'Õ' => 'õ'
  | 'Ú' => 'ú'
  | 'Ç' => 'ç'
  | _ => c.toLower

/-- `leadMatch needle hay` holds when `needle` occurs at the very front of
`hay` (helper for the substring test). -/
def leadMatch : List Char → List Char → Bool
  | [], _ => true
  | _ :: _, [] => false
  | a :: as, b :: bs => a == b && leadMatch as bs

/-- Models Python's `needle in hay` substring containment on strings. -/
def containsSub (needle : List Char) : List Char → Bool
  | [] => leadMatch needle []
  | hay@(_ :: rest) => leadMatch needle hay || containsSub needle rest

/-- Lowercased character list of a string, as Python `s.lower()`. -/
def lowerData (s : String) : List Char := s.data.map toLowerPy

/-- The characters Python `str.strip()` removes by default (ASCII part). -/
def isPySpace (c : Char) : Bool :=
  c == ' ' || c == '\t' || c == '\n' || c == '\r' || c == '\x0b' || c == '\x0c'

/-- Models Python `str.strip()`: removes leading and trailing whitespace. -/
def pyStrip (s : List Char) : List Char :=
  ((s.dropWhile isPySpace).reverse.dropWhile isPySpace).reverse

/-!  ## Date model (lines 119-147 of `app.py`) -/

/-- Model of a timezone-homogeneous Python `datetime`: calendar fields plus
an opaque time-of-day component `tod` (sub-day precision), which
`replace(day=..., month=..., year=...)` never alters. -/
structure PyDateTime where
  year : Nat
  month : Nat
  day : Nat
  tod : Nat
deriving DecidableEq, Repr

/-- Gregorian leap-year rule, as `datetime` uses. -/
def isLeap (y : Nat) : Bool := y % 4 == 0 && (y % 100 != 0 || y % 400 == 0)

/-- Number of days of month `m` of year `y`. -/
def daysInMonth (y m : Nat) : Nat :=
  if m == 2 then (if isLeap y then 29 else 28)
  else if m == 4 || m == 6 || m == 9 || m == 11 then 30
  else 31

/-- The field validation Python's `datetime` constructor (hence `replace`)
performs: month in 1..12, day in range for the month, year in 1..9999. -/
def validYMD (y m d : Nat) : Bool :=
  1 ≤ y && y ≤ 9999 && 1 ≤ m && m ≤ 12 && 1 ≤ d && d ≤ daysInMonth y m

/-- Models building a `datetime` with the given fields: `ValueError`
(here `.error ()`) when the combination does not exist. -/
def mkDT (y m d tod : Nat) : Except Unit PyDateTime :=
  if validYMD y m d then .ok ⟨y, m, d, tod⟩ else .error ()

/-- Strict comparison of two same-timezone `datetime`s: lexicographic on
(year, month, day, time-of-day). -/
def dtLtP (a b : PyDateTime) : Prop :=
  a.year < b.year ∨ (a.year = b.year ∧
    (a.month < b.month ∨ (a.month = b.month ∧
      (a.day < b.day ∨ (a.day = b.day ∧ a.tod < b.tod)))))

instance (a b : PyDateTime) : Decidable (dtLtP a b) := by
  unfold dtLtP; infer_instance

/-- Boolean form of `dtLtP`, used where the source writes `target_date < today`. -/
def dtLt (a b : PyDateTime) : Bool := decide (dtLtP a b)

/-- The date-resolution logic of `_get_free_slots` (lines 122-134):
`day` alone, or `day` and month `mo`.  Mirrors the source exactly,
including the fact that the December fix-up line runs only after
`replace(month=today.month + 1)` has already been attempted. -/
def resolveTarget (today : PyDateTime) (day : Nat) (mo? : Option Nat) :
    Except Unit PyDateTime :=
  match mo? with
  | none =>
    match mkDT today.year today.month day today.tod with
    | .error e => .error e
    | .ok t0 =>
      if dtLt t0 today then
        match mkDT t0.year (today.month + 1) t0.day t0.tod with
        | .error e => .error e
        | .ok t1 =>
          if today.month == 12 then mkDT (today.year + 1) 1 t1.day t1.tod
          else .ok t1
      else .ok t0
  | some mo =>
    match mkDT today.year mo day today.tod with
    | .error e => .error e
    | .ok t0 =>
      if dtLt t0 today then mkDT (today.year + 1) t0.month t0.day t0.tod
      else .ok t0

/-- Sakamoto day-of-week table. -/
def sakamotoT : List Nat := [0, 3, 2, 5, 0, 3, 5, 1, 4, 6, 2, 4]

/-- Day of week with Sunday = 0 (Sakamoto's algorithm). -/
def dowSunday0 (y m d : Nat) : Nat :=
  let y' := if m < 3 then y - 1 else y
  (y' + y' / 4 - y' / 100 + y' / 400 + sakamotoT.getD (m - 1) 0 + d) % 7

/-- Models Python `datetime.weekday()`: Monday = 0, ..., Sunday = 6. -/
def pyWeekday (y m d : Nat) : Nat := (dowSunday0 y m d + 6) % 7

/-!  ## Slot generation and conflict marking (lines 145-194 of `app.py`) -/

/-- The `while current_time < end_time` loop of `_get_free_slots`
(lines 162-169), generating one-hour slots; the fuel argument only bounds
the number of iterations of the loop. -/
def genSlots : Nat → Int → Int → List (Int × Int)
  | 0, _, _ => []
  | fuel + 1, cur, stop =>
    if cur < stop then (cur, cur + 60) :: genSlots fuel (cur + 60) stop
    else []

/-- All candidate slots between `a` and `b` (minutes of the resolved day);
`b - a` minutes is always enough fuel for the hourly loop. -/
def allSlots (a b : Int) : List (Int × Int) := genSlots (b - a).toNat a b

/-- The conflict-marking loop (lines 172-178): a slot ends up marked busy
exactly when some event satisfies
`not (event_end <= slot['start'] or event_start >= slot['end'])`. -/
def slotBusy (events : List (Int × Int)) (sl : Int × Int) : Bool :=
  events.any fun ev => !(decide (ev.2 ≤ sl.1) || decide (ev.1 ≥ sl.2))

/-- The dictionary `_get_free_slots` returns: the Sunday flag, the free
slots (unformatted, as minute intervals), and the resolved target date. -/
structure FreeSlotsResult where
  isSunday : Bool
  freeSlots : List (Int × Int)
  targetDate : PyDateTime
deriving DecidableEq, Repr

/-- `_get_free_slots` (lines 113-198): resolve the date, short-circuit
Sundays, otherwise generate the 8:00-19:00 hourly slots, mark conflicts
against the existing events and keep the unmarked slots.  Exceptions
(invalid dates, provider failures) propagate as `.error`. -/
def getFreeSlots (today : PyDateTime) (day : Nat) (mo? : Option Nat)
    (events : List (Int × Int)) : Except Unit FreeSlotsResult :=
  match resolveTarget today day mo? with
  | .error e => .error e
  | .ok t =>
    if pyWeekday t.year t.month t.day == 6 then
      .ok ⟨true, [], t⟩
    else
      .ok ⟨false, (allSlots (8 * 60) (19 * 60)).filter
            (fun sl => !slotBusy events sl), t⟩

/-!  ## Booking locator and cancellation (lines 200-309 of `app.py`) -/

/-- A calendar event as the provider returns it: opaque identifier, title
(`''` when absent, via `event.get('summary', '')`) and start minute. -/
structure CalEvent where
  id : String
  summary : List Char
  startMin : Int
deriving DecidableEq, Repr

/-- Modelled from the spec: the external calendar provider's
`listEvents(calendarId, timeMin, timeMax, timezone)` capability, which is
not part of this repository; per the spec it returns the bookings falling
in the window, in start-time ascending order (order-preserving on an
ascending input list). -/
def listEvents (bookings : List CalEvent) (tmin tmax : Int) : List CalEvent :=
  bookings.filter fun e => decide (tmin ≤ e.startMin) && decide (e.startMin ≤ tmax)

/-- The title test of line 301: `summary.lower() in event.get('summary', '').lower()`. -/
def tituloContem (frag : List Char) (ev : CalEvent) : Bool :=
  containsSub (frag.map toLowerPy) (ev.summary.map toLowerPy)

/-- Python truthiness of the optional `summary` argument (`if summary:`):
`None` and the empty string are falsy. -/
def truthy : Option (List Char) → Bool
  | none => false
  | some s => !s.isEmpty

/-- `_encontrar_evento_por_hora` (lines 274-309) applied to the outcome of
the provider's listing call for the ±30-minute window: on a provider
exception the `except` block returns `None`; on an empty listing `None`;
with a truthy title fragment, the first event whose title contains it
case-insensitively; otherwise the first event of the window. -/
def encontrarEventoPorHora (listResult : Except Unit (List CalEvent))
    (summary? : Option (List Char)) : Option String :=
  match listResult with
  | .error _ => none
  | .ok events =>
    match events with
    | [] => none
    | e0 :: _ =>
      match (if truthy summary? then
               events.find? (tituloContem (summary?.getD []))
             else none) with
      | some ev => some ev.id
      | none => some e0.id

/-- The message of line 216, returned when no event is found to cancel. -/
def msgNaoEncontrada : String := "❌ Reunião não encontrada"

/-- The cancellation confirmation of lines 224-231, with the
Portuguese-formatted date parts supplied by `_format_date_pt`. -/
def confirmacaoCancelamento (dia mes hora : String) (summary? : Option String) :
    String :=
  "🗑️ *Cancelamento Confirmado!*\n\n" ++
  "📅 *Data Cancelada:* " ++ dia ++ " de " ++ mes ++ "\n" ++
  "⏰ *Horário:* " ++ hora ++ "\n\n" ++
  "🗒️ *Detalhes:* " ++ summary?.getD "Reunião com Cláudia" ++ "\n\n" ++
  "📱 Lembrete: Este horário está agora disponível para novos agendamentos.\n" ++
  "🔄 *Precisa reagendar?* Me avise!"

/-- Outcome of the cancel branch of `_run`: the string returned to the
caller, and the event identifiers for which a deletion request was issued. -/
structure CancelOutcome where
  message : String
  deletions : List String
deriving DecidableEq, Repr

/-- The `action == "cancelar"` branch of `_run` (lines 206-233).
`listResult` is the outcome of the locator's provider listing call;
`deleteResult` the outcome of the `events().delete(...)` call (only
consulted when a deletion is actually requested; a failure there is caught
by the surrounding `except` which returns `"❌ Erro: ..."`). -/
def runCancelar (listResult : Except Unit (List CalEvent))
    (deleteResult : Except String Unit) (dia mes hora : String)
    (summary? : Option String) : CancelOutcome :=
  match encontrarEventoPorHora listResult (summary?.map String.data) with
  | none => ⟨msgNaoEncontrada, []⟩
  | some eid =>
    match deleteResult with
    | .ok _ => ⟨confirmacaoCancelamento dia mes hora summary?, [eid]⟩
    | .error e => ⟨"❌ Erro: " ++ e, [eid]⟩

/-!  ## Message processing (lines 315-480 of `app.py`) -/

/-- One invocation of the Delivery Gateway (`enviar_mensagem_whatsapp`):
the recipient number as passed in, and the message body. -/
structure Send where
  destinatario : String
  body : String
deriving DecidableEq, Repr

/-- Keyword list of line 383. -/
def palavrasAgendamento : List String :=
  ["agendar", "marcar", "horário", "hora", "reunião", "consulta", "visita"]

/-- Keyword list of line 384. -/
def palavrasCancelamento : List String :=
  ["cancelar", "desmarcar", "remover", "excluir"]

/-- Keyword list of line 385. -/
def palavrasHorarios : List String :=
  ["horários", "horarios", "disponíveis", "disponiveis", "vagas", "abertos"]

/-- Keyword list of lines 386-387. -/
def palavrasPrecos : List String :=
  ["preços", "precos", "valores", "tabela", "serviços", "servicos", "menu",
   "cardápio", "cardapio"]

/-- `any(palavra in mensagem_lower for palavra in palavras)` (lines 390-393). -/
def contemPalavra (palavras : List String) (mensagemLower : List Char) : Bool :=
  palavras.any fun p => containsSub p.data mensagemLower

/-- The greeting `enviar_saudacao_inicial` sends (lines 317-328). -/
def saudacaoInicial : String :=
  "👋 *Olá!* Sou a IAIÁ, o braço direito da Cláudia.* 🤖✨\n\n" ++
  "📅 *Posso agendar seu horário com ela!* É simples:\n" ++
  "   - Me diga o *dia* e *horário* que deseja\n" ++
  "   - Ex: *\"Quero agendar dia 25/07 às 15h\"*\n\n" ++
  "💬 *Precisa de outra coisa?*\n" ++
  "   - Me envie sua solicitação\n" ++
  "   - Ex: *\"Gostaria de saber sobre valores.\"*\n" ++
  "   - Eu repasso pra ela e *ela te responde pessoalmente* 💛\n\n" ++
  "⏳ *Retorno garantido ainda hoje!*\n" ++
  "📲 *Vamos começar?*"

/-- The fixed forwarding recipient of line 472. -/
def numeroClaudia : String := "+5511981583453"

/-- The forwarded message of lines 466-471, with the formatted
`datetime.now()` string supplied as `nowStr`. -/
def mensagemEncaminhada (mensagem numero nowStr : String) : String :=
  "📩 *Novo Pedido de Cliente*\n\n" ++
  "*Mensagem:* " ++ mensagem ++ "\n" ++
  "*Número:* " ++ numero ++ "\n" ++
  "*Data/Hora:* " ++ nowStr

/-- The acknowledgment of lines 474-478. -/
def respostaCliente : String :=
  "📨 *Mensagem Encaminhada!*\n\n" ++
  "Sua solicitação foi enviada diretamente para a Cláudia.\n" ++
  "Ela responderá pessoalmente em breve!"

/-- The Delivery Gateway invocations `processar_mensagem` makes
(lines 373-480): the optional first-contact greeting, then — when the
message matches none of the four keyword lists — the forward to the fixed
recipient and the acknowledgment to the sender.  The price / free-slot /
scheduling branches involve provider and extractor calls outside this
model and are returned as `none`. -/
def processarMensagemSends (mensagem numero : String) (primeiraVez : Bool)
    (nowStr : String) : Option (List Send) :=
  let saudacao : List Send := if primeiraVez then [⟨numero, saudacaoInicial⟩] else []
  let ml := lowerData mensagem
  let ehAgendamento := contemPalavra palavrasAgendamento ml
  let ehCancelamento := contemPalavra palavrasCancelamento ml
  let ehHorarios := contemPalavra palavrasHorarios ml
  let ehPrecos := contemPalavra palavrasPrecos ml
  if ehAgendamento || ehCancelamento || ehHorarios || ehPrecos then none
  else some (saudacao ++
    [⟨numeroClaudia, mensagemEncaminhada mensagem numero nowStr⟩,
     ⟨numero, respostaCliente⟩])

/-!  ## Webhook handler (lines 565-586 of `app.py`) -/

/-- Outcome of the webhook handler: HTTP 400, or processing of the
stripped message and sender (followed by the 200 TwiML response). -/
inductive WebhookResponse where
  | badRequest
  | processed (incomingMsg sender : String)
deriving DecidableEq, Repr

/-- The `webhook` route (lines 565-582): read `Body` and `From` from the
form values (defaulting to `''`), strip them, and return 400 when either
is empty; otherwise process the message. -/
def webhookHandle (body? from? : Option String) : WebhookResponse :=
  let incoming := pyStrip (body?.getD "").data
  let sender := pyStrip (from?.getD "").data
  if incoming.isEmpty || sender.isEmpty then .badRequest
  else .processed ⟨incoming⟩ ⟨sender⟩

/-!  ## Helper lemmas -/

/-- The concrete value of the 8:00-19:00 hourly slot list, in minutes. -/
theorem allSlots_eval : allSlots (8 * 60) (19 * 60) =
    [(480, 540), (540, 600), (600, 660), (660, 720), (720, 780), (780, 840),
     (840, 900), (900, 960), (960, 1020), (1020, 1080), (1080, 1140)] := by
  decide

/-- A `"❌ Erro: ..."` message never coincides with the not-found message. -/
theorem erroMsg_ne_naoEncontrada (e : String) :
    "❌ Erro: " ++ e ≠ msgNaoEncontrada := by
  intro h
  have h2 : ("❌ Erro: " ++ e).data = msgNaoEncontrada.data := congrArg String.data h
  have h3 : "❌ Erro: ".data ++ e.data = msgNaoEncontrada.data := by simpa using h2
  simp [msgNaoEncontrada] at h3

/-!  ## Claims -/

/-- Claim C1: the conflict marker marks a slot occupied iff some booking
satisfies `NOT(booking_end <= slot_start OR booking_start >= slot_end)`;
a booking ending exactly at the slot's start does not mark it (touching is
not overlap); a booking partially overlapping the slot marks it. -/
theorem conflictMarker_correct (events : List (Int × Int)) (sl : Int × Int) :
    (slotBusy events sl = true ↔ ∃ ev ∈ events, ¬(ev.2 ≤ sl.1 ∨ ev.1 ≥ sl.2))
    ∧ (∀ bstart : Int, slotBusy [(bstart, sl.1)] sl = false)
    ∧ (∀ ev : Int × Int, ev.1 < sl.2 → sl.1 < ev.2 →
        slotBusy (ev :: events) sl = true) := by
  refine ⟨by simp [slotBusy, not_or], by simp [slotBusy], ?_⟩
  intro ev h1 h2
  simp [slotBusy, not_or]
  omega

/-- Witness for C1 at a concrete input: the 9:00-10:30 booking partially
overlapping the 10:00-11:00 slot marks it occupied. -/
theorem conflictMarker_correct_witness :
    slotBusy [((540 : Int), (630 : Int))] ((600 : Int), (660 : Int)) = true :=
  (conflictMarker_correct [] ((600 : Int), (660 : Int))).2.2 (540, 630)
    (by decide) (by decide)

/-- Claim C2: on every non-Sunday resolved date the free slots are computed
from the slot generator's output on the 8:00-19:00 window, and that output
is exactly 11 ascending, contiguous, non-overlapping one-hour slots whose
union is the half-open interval [8:00, 19:00). -/
theorem slotGenerator_correct (today : PyDateTime) (day : Nat)
    (mo? : Option Nat) (events : List (Int × Int)) (r : FreeSlotsResult)
    (h : getFreeSlots today day mo? events = .ok r) (hs : r.isSunday = false) :
    r.freeSlots = (allSlots (8 * 60) (19 * 60)).filter (fun sl => !slotBusy events sl)
    ∧ (allSlots (8 * 60) (19 * 60)).length = 11
    ∧ (∀ sl ∈ allSlots (8 * 60) (19 * 60), sl.2 = sl.1 + 60)
    ∧ List.Chain' (fun p q : Int × Int => p.2 = q.1) (allSlots (8 * 60) (19 * 60))
    ∧ List.Chain' (fun p q : Int × Int => p.1 < q.1) (allSlots (8 * 60) (19 * 60))
    ∧ (∀ t : Int, (∃ sl ∈ allSlots (8 * 60) (19 * 60), sl.1 ≤ t ∧ t < sl.2) ↔
        8 * 60 ≤ t ∧ t < 19 * 60) := by
  refine ⟨?_, by rw [allSlots_eval]; decide, by rw [allSlots_eval]; decide,
    by rw [allSlots_eval]; simp [List.chain'_cons],
    by rw [allSlots_eval]; simp [List.chain'_cons], ?_⟩
  · cases hr : resolveTarget today day mo? with
    | error e => simp [getFreeSlots, hr] at h
    | ok tt =>
      simp only [getFreeSlots, hr] at h
      split at h
      · simp only [Except.ok.injEq] at h
        subst h
        simp at hs
      · simp only [Except.ok.injEq] at h
        subst h
        rfl
  · intro t
    rw [allSlots_eval]
    simp
    omega

/-- Witness for C2 at a concrete input (2025-06-16, a Monday, no events). -/
theorem slotGenerator_correct_witness :
    (FreeSlotsResult.mk false (allSlots (8 * 60) (19 * 60)) ⟨2025, 6, 16, 0⟩).freeSlots
      = (allSlots (8 * 60) (19 * 60)).filter (fun sl => !slotBusy [] sl)
    ∧ (allSlots (8 * 60) (19 * 60)).length = 11
    ∧ (∀ sl ∈ allSlots (8 * 60) (19 * 60), sl.2 = sl.1 + 60)
    ∧ List.Chain' (fun p q : Int × Int => p.2 = q.1) (allSlots (8 * 60) (19 * 60))
    ∧ List.Chain' (fun p q : Int × Int => p.1 < q.1) (allSlots (8 * 60) (19 * 60))
    ∧ (∀ t : Int, (∃ sl ∈ allSlots (8 * 60) (19 * 60), sl.1 ≤ t ∧ t < sl.2) ↔
        8 * 60 ≤ t ∧ t < 19 * 60) :=
  slotGenerator_correct ⟨2025, 6, 16, 0⟩ 16 (some 6) []
    ⟨false, allSlots (8 * 60) (19 * 60), ⟨2025, 6, 16, 0⟩⟩ rfl rfl

/-- Claim C3: whenever the date resolver succeeds, the resolved datetime is
not earlier than the reference instant `today`. -/
theorem dateResolver_ge_now (today : PyDateTime) (day : Nat) (mo? : Option Nat)
    (t : PyDateTime) (h : resolveTarget today day mo? = .ok t) : ¬ dtLtP t today := by
  obtain ⟨y, m, d, td⟩ := today
  cases mo? with
  | none =>
    by_cases hv1 : validYMD y m day = true
    · simp only [resolveTarget, mkDT, hv1, if_pos] at h
      by_cases hlt : dtLt ⟨y, m, day, td⟩ ⟨y, m, d, td⟩ = true
      · simp only [hlt, if_pos] at h
        by_cases hv2 : validYMD y (m + 1) day = true
        · simp only [hv2, if_pos] at h
          by_cases hm : (m == 12) = true
          · simp only [hm, if_pos] at h
            by_cases hv3 : validYMD (y + 1) 1 day = true
            · simp only [hv3, if_pos, Except.ok.injEq] at h
              subst h
              simp only [dtLtP]
              omega
            · simp only [hv3, Bool.false_eq_true, reduceIte] at h
              exact Except.noConfusion h
          · simp only [hm, Bool.false_eq_true, reduceIte, Except.ok.injEq] at h
            subst h
            simp only [dtLtP]
            omega
        · simp only [hv2, Bool.false_eq_true, reduceIte] at h
          exact Except.noConfusion h
      · simp only [hlt, Bool.false_eq_true, reduceIte, Except.ok.injEq] at h
        subst h
        simpa [dtLt] using hlt
    · simp only [resolveTarget, mkDT, hv1, Bool.false_eq_true, reduceIte] at h
      exact Except.noConfusion h
  | some mo =>
    by_cases hv1 : validYMD y mo day = true
    · simp only [resolveTarget, mkDT, hv1, if_pos] at h
      by_cases hlt : dtLt ⟨y, mo, day, td⟩ ⟨y, m, d, td⟩ = true
      · simp only [hlt, if_pos] at h
        by_cases hv2 : validYMD (y + 1) mo day = true
        · simp only [hv2, if_pos, Except.ok.injEq] at h
          subst h
          simp only [dtLtP]
          omega
        · simp only [hv2, Bool.false_eq_true, reduceIte] at h
          exact Except.noConfusion h
      · simp only [hlt, Bool.false_eq_true, reduceIte, Except.ok.injEq] at h
        subst h
        simpa [dtLt] using hlt
    · simp only [resolveTarget, mkDT, hv1, Bool.false_eq_true, reduceIte] at h
      exact Except.noConfusion h

/-- Witness for C3 at a concrete input: day 5 resolved from 2025-06-15
gives 2025-07-05, which is not earlier than the reference instant. -/
theorem dateResolver_ge_now_witness : ¬ dtLtP ⟨2025, 7, 5, 0⟩ ⟨2025, 6, 15, 0⟩ :=
  dateResolver_ge_now ⟨2025, 6, 15, 0⟩ 5 none ⟨2025, 7, 5, 0⟩ rfl

/-- Claim C4 (failing input): resolving day-only input 5 when now is
2025-12-20 raises (`replace(month=13)` is attempted before the December
fix-up line), instead of rolling into January 2026 as the claim states;
the error propagates out of the free-slot computation. -/
theorem dateResolver_december_raises :
    resolveTarget ⟨2025, 12, 20, 0⟩ 5 none = .error ()
    ∧ getFreeSlots ⟨2025, 12, 20, 0⟩ 5 none [] = .error () := ⟨rfl, rfl⟩

/-- Claim C5: searching the ±30-minute window, the locator returns `none`
when the provider listing for the window is empty; with a non-empty title
fragment it returns the first booking whose title contains the fragment
case-insensitively; and with a fragment matching no booking it falls back
to the first booking of the window. -/
theorem bookingLocator_correct (bookings : List CalEvent) (target : Int)
    (frag : List Char) :
    (listEvents bookings (target - 30) (target + 30) = [] →
      ∀ s? : Option (List Char),
        encontrarEventoPorHora (.ok (listEvents bookings (target - 30) (target + 30))) s?
          = none)
    ∧ (∀ ev : CalEvent, frag ≠ [] →
        (listEvents bookings (target - 30) (target + 30)).find? (tituloContem frag)
          = some ev →
        encontrarEventoPorHora (.ok (listEvents bookings (target - 30) (target + 30)))
          (some frag) = some ev.id)
    ∧ (∀ e0 : CalEvent, frag ≠ [] →
        (listEvents bookings (target - 30) (target + 30)).head? = some e0 →
        (listEvents bookings (target - 30) (target + 30)).find? (tituloContem frag)
          = none →
        encontrarEventoPorHora (.ok (listEvents bookings (target - 30) (target + 30)))
          (some frag) = some e0.id) := by
  generalize listEvents bookings (target - 30) (target + 30) = evs
  refine ⟨?_, ?_, ?_⟩
  · rintro rfl s?
    rfl
  · intro ev hfrag hfind
    cases evs with
    | nil => simp at hfind
    | cons e0 es =>
      have ht : truthy (some frag) = true := by
        simp [truthy, List.isEmpty_iff, hfrag]
      simp [encontrarEventoPorHora, ht, hfind]
  · intro e0 hfrag hhead hfind
    cases evs with
    | nil => simp at hhead
    | cons e0' es =>
      simp only [List.head?_cons, Option.some.injEq] at hhead
      subst hhead
      have ht : truthy (some frag) = true := by
        simp [truthy, List.isEmpty_iff, hfrag]
      simp [encontrarEventoPorHora, ht, hfind]

/-- Witness for C5 at a concrete input: three bookings at 9:00, 9:15 and
9:45, target 9:20 (window 8:50-9:50); the fragment "consulta" picks the
9:15 booking, and the unmatched fragment "pilates" falls back to the first
booking of the window. -/
theorem bookingLocator_correct_witness :
    encontrarEventoPorHora
      (.ok (listEvents
        [⟨"ev1", "Reunião com Cláudia".data, 540⟩,
         ⟨"ev2", "Consulta".data, 555⟩,
         ⟨"ev3", "Visita".data, 585⟩] (560 - 30) (560 + 30)))
      (some "consulta".data) = some "ev2"
    ∧ encontrarEventoPorHora
        (.ok (listEvents
          [⟨"ev1", "Reunião com Cláudia".data, 540⟩,
           ⟨"ev2", "Consulta".data, 555⟩,
           ⟨"ev3", "Visita".data, 585⟩] (560 - 30) (560 + 30)))
        (some "pilates".data) = some "ev1" :=
  ⟨(bookingLocator_correct
      [⟨"ev1", "Reunião com Cláudia".data, 540⟩,
       ⟨"ev2", "Consulta".data, 555⟩,
       ⟨"ev3", "Visita".data, 585⟩] 560 "consulta".data).2.1
      ⟨"ev2", "Consulta".data, 555⟩ (by decide) (by decide),
   (bookingLocator_correct
      [⟨"ev1", "Reunião com Cláudia".data, 540⟩,
       ⟨"ev2", "Consulta".data, 555⟩,
       ⟨"ev3", "Visita".data, 585⟩] 560 "pilates".data).2.2
      ⟨"ev1", "Reunião com Cláudia".data, 540⟩ (by decide) (by decide) (by decide)⟩

/-- Claim C7: when the locator does not find the target booking, the cancel
branch returns the BookingNotFound message and issues no deletion request. -/
theorem cancel_notFound_noDeletion (listResult : Except Unit (List CalEvent))
    (deleteResult : Except String Unit) (dia mes hora : String)
    (summary? : Option String)
    (h : encontrarEventoPorHora listResult (summary?.map String.data) = none) :
    runCancelar listResult deleteResult dia mes hora summary?
      = ⟨msgNaoEncontrada, []⟩ := by
  simp [runCancelar, h]

/-- Witness for C7 at a concrete input: an empty window listing. -/
theorem cancel_notFound_noDeletion_witness :
    runCancelar (.ok []) (.ok ()) "20" "Julho" "15:00" none
      = ⟨msgNaoEncontrada, []⟩ :=
  cancel_notFound_noDeletion (.ok []) (.ok ()) "20" "Julho" "15:00" none rfl

/-- Counterexample to claim C8: when the event-listing call of the locator
fails during a cancellation, the user receives exactly the BookingNotFound
message — not a distinct generic failure notice. -/
theorem providerFailure_reported_as_notFound :
    runCancelar (.error ()) (.ok ()) "20" "Julho" "15:00" none
      = ⟨msgNaoEncontrada, []⟩
    ∧ msgNaoEncontrada = "❌ Reunião não encontrada" := ⟨rfl, rfl⟩

/-- Claim C8 as amended: a failure of the locator's event-listing call
during cancellation surfaces as the BookingNotFound message (with no
deletion), while a failure of the deletion call itself produces the
generic `"❌ Erro: ..."` notice, which is distinct from BookingNotFound. -/
theorem cancel_providerError_behavior (deleteResult : Except String Unit)
    (dia mes hora : String) (summary? : Option String) :
    (runCancelar (.error ()) deleteResult dia mes hora summary?
      = ⟨msgNaoEncontrada, []⟩)
    ∧ (∀ (listResult : Except Unit (List CalEvent)) (eid e : String),
        encontrarEventoPorHora listResult (summary?.map String.data) = some eid →
        runCancelar listResult (.error e) dia mes hora summary?
          = ⟨"❌ Erro: " ++ e, [eid]⟩
        ∧ "❌ Erro: " ++ e ≠ msgNaoEncontrada) := by
  refine ⟨rfl, ?_⟩
  intro listResult eid e hfound
  exact ⟨by simp [runCancelar, hfound], erroMsg_ne_naoEncontrada e⟩

/-- Witness for the amended C8 at concrete inputs. -/
theorem cancel_providerError_behavior_witness :
    runCancelar (.error ()) (.ok ()) "20" "Julho" "15:00" (some "Consulta")
      = ⟨msgNaoEncontrada, []⟩
    ∧ (runCancelar (.ok [⟨"ev1", "Consulta".data, 540⟩]) (.error "HttpError")
        "20" "Julho" "15:00" (some "Consulta")
        = ⟨"❌ Erro: " ++ "HttpError", ["ev1"]⟩
       ∧ "❌ Erro: " ++ "HttpError" ≠ msgNaoEncontrada) :=
  ⟨(cancel_providerError_behavior (.ok ()) "20" "Julho" "15:00" (some "Consulta")).1,
   (cancel_providerError_behavior (.error "HttpError") "20" "Julho" "15:00"
      (some "Consulta")).2
     (.ok [⟨"ev1", "Consulta".data, 540⟩]) "ev1" "HttpError" (by decide)⟩

/-- Counterexample to claim C9: on a message matching none of the keyword
lists, handled as the webhook handles it (`primeira_vez` defaulting to
`True`), the Delivery Gateway is invoked three times — the first-contact
greeting precedes the forward and the acknowledgment — not exactly twice. -/
theorem forward_greeting_three_sends :
    (processarMensagemSends "Oi, tudo bem?" "+5511999999999" true
        "01/01/2025 10:00").map List.length = some 3
    ∧ (processarMensagemSends "Oi, tudo bem?" "+5511999999999" true
        "01/01/2025 10:00").map List.length ≠ some 2 := by
  exact ⟨by decide, by decide⟩

/-- Claim C9 as amended: on a message matching none of the four keyword
lists the forwarding handling itself invokes the Delivery Gateway exactly
twice — the forward to the fixed recipient with the original message
embedded, then the acknowledgment to the sender — and with the
first-contact greeting enabled (as on every webhook call) those two are
preceded by the greeting to the sender, three invocations in total. -/
theorem forward_path_sends (mensagem numero nowStr : String)
    (h1 : contemPalavra palavrasAgendamento (lowerData mensagem) = false)
    (h2 : contemPalavra palavrasCancelamento (lowerData mensagem) = false)
    (h3 : contemPalavra palavrasHorarios (lowerData mensagem) = false)
    (h4 : contemPalavra palavrasPrecos (lowerData mensagem) = false) :
    processarMensagemSends mensagem numero false nowStr =
      some [⟨numeroClaudia, mensagemEncaminhada mensagem numero nowStr⟩,
            ⟨numero, respostaCliente⟩]
    ∧ processarMensagemSends mensagem numero true nowStr =
      some [⟨numero, saudacaoInicial⟩,
            ⟨numeroClaudia, mensagemEncaminhada mensagem numero nowStr⟩,
            ⟨numero, respostaCliente⟩] := by
  constructor <;> simp [processarMensagemSends, h1, h2, h3, h4]

/-- Witness for the amended C9 at a concrete keyword-free message. -/
theorem forward_path_sends_witness :
    processarMensagemSends "Oi, tudo bem?" "+5511999999999" false
        "01/01/2025 10:00" =
      some [⟨numeroClaudia,
             mensagemEncaminhada "Oi, tudo bem?" "+5511999999999" "01/01/2025 10:00"⟩,
            ⟨"+5511999999999", respostaCliente⟩] :=
  (forward_path_sends "Oi, tudo bem?" "+5511999999999" "01/01/2025 10:00"
    (by decide) (by decide) (by decide) (by decide)).1

/-- Claim C10: the webhook answers 400 exactly when `Body` or `From` is
missing, empty, or whitespace-only after stripping (whitespace-only
strings strip to empty), and performs no message processing then. -/
theorem webhook_badRequest_correct :
    (∀ body? from? : Option String,
      webhookHandle body? from? = .badRequest ↔
        (pyStrip (body?.getD "").data = [] ∨ pyStrip (from?.getD "").data = []))
    ∧ (∀ s : List Char, (∀ c ∈ s, isPySpace c = true) → pyStrip s = [])
    ∧ (∀ from? : Option String, webhookHandle none from? = .badRequest)
    ∧ (∀ body? : Option String, webhookHandle body? none = .badRequest) := by
  have hws : ∀ s : List Char, (∀ c ∈ s, isPySpace c = true) → pyStrip s = [] := by
    intro s hall
    have h1 : s.dropWhile isPySpace = [] :=
      List.dropWhile_eq_nil_iff.mpr (by simpa using hall)
    simp [pyStrip, h1]
  have hiff : ∀ body? from? : Option String,
      webhookHandle body? from? = .badRequest ↔
        (pyStrip (body?.getD "").data = [] ∨ pyStrip (from?.getD "").data = []) := by
    intro b f
    simp only [webhookHandle]
    split
    · rename_i hc
      simp only [Bool.or_eq_true, List.isEmpty_iff] at hc
      simpa using hc
    · rename_i hc
      simp only [Bool.or_eq_true, List.isEmpty_iff] at hc
      simpa using hc
  refine ⟨hiff, hws, ?_, ?_⟩
  · intro f
    exact (hiff none f).mpr (Or.inl rfl)
  · intro b
    exact (hiff b none).mpr (Or.inr rfl)

/-- Witness for C10 at concrete inputs: a whitespace-only `Body` yields 400. -/
theorem webhook_badRequest_correct_witness :
    webhookHandle (some "   ") (some "whatsapp:+5511999999999") = .badRequest
    ∧ pyStrip " \t\n ".data = [] :=
  ⟨(webhook_badRequest_correct.1 (some "   ")
      (some "whatsapp:+5511999999999")).mpr (Or.inl (by decide)),
   webhook_badRequest_correct.2.1 " \t\n ".data (by decide)⟩

/-- Claim C6: a day/month input naming a nonexistent calendar date fails
the `replace` validation immediately, and the error propagates out of the
free-slot computation to the caller — the date is never clamped. -/
theorem invalidDate_propagates (today : PyDateTime) (day mo : Nat)
    (events : List (Int × Int))
    (h : validYMD today.year mo day = false) :
    resolveTarget today day (some mo) = .error ()
    ∧ getFreeSlots today day (some mo) events = .error () := by
  have h1 : resolveTarget today day (some mo) = .error () := by
    simp [resolveTarget, mkDT, h]
  refine ⟨h1, ?_⟩
  simp [getFreeSlots, h1]

/-- Witness for C6 at a concrete input: day 31 of the 30-day month April. -/
theorem invalidDate_propagates_witness :
    resolveTarget ⟨2025, 6, 15, 0⟩ 31 (some 4) = .error ()
    ∧ getFreeSlots ⟨2025, 6, 15, 0⟩ 31 (some 4) [] = .error () :=
  invalidDate_propagates ⟨2025, 6, 15, 0⟩ 31 4 [] (by decide)
